import Mathlib

/-!
Shallow embedding of the Slack MCP server's API-client core
(src/utils/errors.ts, src/utils/pagination.ts, src/client.ts / types/env.ts),
together with theorems checking the natural-language specification
against the embedded code.

Conventions of the embedding:
* TypeScript `string | undefined` becomes `Option String` (`none` = absent).
* JavaScript truthiness tests on strings (`a || b`, `!!s`, `s ? x : y`)
  are modelled explicitly: `none` and the empty string are falsy.
* Thrown errors become `Except SlackApiError` results.
* The network is an explicit input: an operation receives the HTTP
  response(s) it would observe, and we reason about the pure function
  from responses to results.
* JavaScript numbers that can be `NaN` (the result of `parseInt`) are
  modelled by `JsNum`.
-/

namespace Slack

-- =========================================================================
-- JavaScript-semantics helpers
-- =========================================================================

/-- A JavaScript number that may be `NaN` (as produced by `parseInt`). -/
inductive JsNum where
  | nan : JsNum
  | int (n : Int) : JsNum
deriving DecidableEq, Repr

/-- Model of the JS expression `a || b` at type `string | undefined` for `a`
and `string` for `b`: `a` is taken unless it is absent or empty (falsy). -/
def jsOrString (a : Option String) (b : String) : String :=
  match a with
  | none => b
  | some s => if s = "" then b else s

/-- Model of the JS expression `a || b` at type `string | undefined` for both
operands: `a` is taken unless it is absent or empty (falsy). -/
def jsOrOptString (a b : Option String) : Option String :=
  match a with
  | none => b
  | some s => if s = "" then b else some s

/-- Model of the JS expression `a || b` at type `number | undefined` for `a`:
`a` is taken unless it is absent or zero (falsy). Used for
`params?.limit || 100`. -/
def jsOrNum (a : Option Int) (b : Int) : Int :=
  match a with
  | none => b
  | some n => if n = 0 then b else n

/-- JS truthiness of a `string | undefined` value: true exactly when the
string is present and non-empty. Models `!!s`. -/
def jsTruthyStr (o : Option String) : Bool :=
  match o with
  | none => false
  | some s => decide (s ≠ "")

/-- Whitespace skipped by JS `parseInt` before reading digits. -/
def isWs (c : Char) : Bool :=
  c = ' ' || c = '\t' || c = '\n' || c = '\r'

/-- Numeric value of a decimal digit character. -/
def digitVal (c : Char) : Nat :=
  c.toNat - 48

/-- Value of a list of decimal digit characters, most significant first. -/
def digitsValL (cs : List Char) : Nat :=
  cs.foldl (fun a c => a * 10 + digitVal c) 0

/-- Model of JS `parseInt(s, 10)`: skip leading whitespace, read an optional
sign, then the longest prefix of decimal digits; `NaN` when no digit is
found. -/
def jsParseInt10 (s : String) : JsNum :=
  match s.data.dropWhile isWs with
  | [] => JsNum.nan
  | c :: rest =>
    let body := if c = '-' || c = '+' then rest else c :: rest
    let digits := body.takeWhile Char.isDigit
    if digits = [] then JsNum.nan
    else if c = '-' then JsNum.int (-(digitsValL digits : Int))
    else JsNum.int (digitsValL digits)

-- =========================================================================
-- Error model (src/utils/errors.ts)
-- =========================================================================

/-- Flattened representation of the `SlackApiError` class hierarchy: the
`name` field plays the role of the concrete class, exactly as the source
sets `this.name` in each constructor. -/
structure SlackApiError where
  name : String
  message : String
  code : String
  statusCode : Option Nat
  retryable : Bool
  retryAfterSeconds : Option JsNum
deriving DecidableEq, Repr

/-- Constructor of the base class `SlackApiError(message, code?, statusCode?,
retryable = false)`; `code || 'SLACK_ERROR'` is JS-falsy on the empty
string. -/
def mkSlackApiError (message : String) (code : Option String)
    (statusCode : Option Nat) (retryable : Bool) : SlackApiError :=
  { name := "SlackApiError"
    message := message
    code := jsOrString code "SLACK_ERROR"
    statusCode := statusCode
    retryable := retryable
    retryAfterSeconds := none }

/-- Constructor of `RateLimitError(message, retryAfterSeconds)`. -/
def mkRateLimitError (message : String) (retryAfterSeconds : JsNum) :
    SlackApiError :=
  { name := "RateLimitError"
    message := message
    code := "RATE_LIMITED"
    statusCode := some 429
    retryable := true
    retryAfterSeconds := some retryAfterSeconds }

/-- Constructor of `AuthenticationError(message)`. -/
def mkAuthenticationError (message : String) : SlackApiError :=
  { name := "AuthenticationError"
    message := message
    code := "AUTHENTICATION_FAILED"
    statusCode := some 401
    retryable := false
    retryAfterSeconds := none }

/-- Constructor of `NotFoundError(entityType, id)`; the message is built
from the template `<entityType> with ID '<id>' not found`. -/
def mkNotFoundError (entityType : String) (id : String) : SlackApiError :=
  { name := "NotFoundError"
    message := entityType ++ " with ID \x27" ++ id ++ "\x27 not found"
    code := "NOT_FOUND"
    statusCode := some 404
    retryable := false
    retryAfterSeconds := none }

/-- Constructor of `PermissionError(message)`. -/
def mkPermissionError (message : String) : SlackApiError :=
  { name := "PermissionError"
    message := message
    code := "MISSING_SCOPE"
    statusCode := some 403
    retryable := false
    retryAfterSeconds := none }

/-- `mapSlackError(errorCode, message?)` from src/utils/errors.ts: the
error classifier, a total pure function over the remote code string. -/
def mapSlackError (errorCode : String) (message : Option String) :
    SlackApiError :=
  let errorMessage := jsOrString message ("Slack API error: " ++ errorCode)
  match errorCode with
  | "invalid_auth" | "not_authed" | "account_inactive"
  | "token_revoked" | "token_expired" =>
      mkAuthenticationError errorMessage
  | "missing_scope" | "not_allowed_token_type" | "ekm_access_denied"
  | "restricted_action" =>
      mkPermissionError errorMessage
  | "channel_not_found" | "user_not_found" | "file_not_found"
  | "message_not_found" =>
      mkNotFoundError "resource" errorCode
  | "ratelimited" =>
      mkRateLimitError errorMessage (JsNum.int 60)
  | _ =>
      mkSlackApiError errorMessage (some errorCode) none false

-- =========================================================================
-- Spec-side error taxonomy (refinement target for the classifier claims)
-- =========================================================================

/-- The spec's closed error taxonomy (§7). -/
inductive ErrorKind where
  | Authentication : ErrorKind
  | Permission : ErrorKind
  | NotFound : ErrorKind
  | RateLimit : ErrorKind
  | Generic : ErrorKind
deriving DecidableEq, Repr

/-- Kind of an embedded error, read off the concrete class (`name`). -/
def SlackApiError.kind (e : SlackApiError) : ErrorKind :=
  match e.name with
  | "AuthenticationError" => ErrorKind.Authentication
  | "PermissionError" => ErrorKind.Permission
  | "NotFoundError" => ErrorKind.NotFound
  | "RateLimitError" => ErrorKind.RateLimit
  | _ => ErrorKind.Generic

/-- Modelled from the spec (§4.3): the authentication code family. -/
def authFamily : List String :=
  ["invalid_auth", "not_authed", "account_inactive", "token_revoked",
   "token_expired"]

/-- Modelled from the spec (§4.3): the permission code family. -/
def permissionFamily : List String :=
  ["missing_scope", "not_allowed_token_type", "ekm_access_denied",
   "restricted_action"]

/-- Modelled from the spec (§4.3): the not-found code family. -/
def notFoundFamily : List String :=
  ["channel_not_found", "user_not_found", "file_not_found",
   "message_not_found"]

/-- Modelled from the spec (§4.3): the kind column of the fixed mapping. -/
def specKind (code : String) : ErrorKind :=
  if code ∈ authFamily then ErrorKind.Authentication
  else if code ∈ permissionFamily then ErrorKind.Permission
  else if code ∈ notFoundFamily then ErrorKind.NotFound
  else if code = "ratelimited" then ErrorKind.RateLimit
  else ErrorKind.Generic

/-- Modelled from the spec (§4.3): the http-status column of the fixed
mapping. -/
def specStatus (code : String) : Option Nat :=
  if code ∈ authFamily then some 401
  else if code ∈ permissionFamily then some 403
  else if code ∈ notFoundFamily then some 404
  else if code = "ratelimited" then some 429
  else none

-- =========================================================================
-- JSON bodies and parameter serialization (JSON.stringify(params))
-- =========================================================================

/-- JSON values, as far as the parameter fields under study need them
(the claims about serialization only involve scalar fields). -/
inductive Json where
  | str (s : String) : Json
  | num (n : Int) : Json
  | bool (b : Bool) : Json
  | null : Json
deriving DecidableEq, Repr

/-- A parameter record as built by the client operations: an ordered list of
fields whose values may be `undefined` (`none`). -/
abbrev ParamRecord : Type := List (String × Option Json)

/-- `JSON.stringify` on a parameter record, viewed as the resulting JSON
object: keys whose value is `undefined` are omitted; every other key is
kept with its value (`null` stays `null`, the empty string stays an empty
string). -/
def stringifyParams (params : ParamRecord) : List (String × Json) :=
  params.filterMap (fun p => p.2.map (fun v => (p.1, v)))

-- =========================================================================
-- Pagination normalizer (src/utils/pagination.ts)
-- =========================================================================

/-- `PaginatedResponse<T>` from src/types/entities.ts. -/
structure PaginatedResponse (T : Type) where
  items : List T
  count : Nat
  hasMore : Bool
  nextCursor : Option String
deriving DecidableEq, Repr

/-- The options object of `createPaginatedResponse`; both fields are
optional. -/
structure PaginationOptions where
  hasMore : Option Bool
  nextCursor : Option String
deriving DecidableEq, Repr

/-- `createPaginatedResponse(items, options)` from src/utils/pagination.ts:
`count` is `items.length`, `hasMore` defaults to `false` (`?? false`), and
`nextCursor` is passed through unchanged. -/
def createPaginatedResponse (T : Type) (items : List T)
    (options : PaginationOptions) : PaginatedResponse T :=
  { items := items
    count := items.length
    hasMore := options.hasMore.getD false
    nextCursor := options.nextCursor }

-- =========================================================================
-- Credential resolver (getAuthHeaders, src/client.ts)
-- =========================================================================

/-- `TenantCredentials` from src/types/env.ts. -/
structure TenantCredentials where
  botToken : Option String
  userToken : Option String
deriving DecidableEq, Repr

/-- The two headers produced on successful credential resolution. -/
structure AuthHeaders where
  authorization : String
  contentType : String
deriving DecidableEq, Repr

/-- `getAuthHeaders()`: `botToken || userToken`, failing with an
`AuthenticationError` when the chosen token is still absent or empty
(`if (!token) throw ...`). -/
def getAuthHeaders (credentials : TenantCredentials) :
    Except SlackApiError AuthHeaders :=
  match jsOrOptString credentials.botToken credentials.userToken with
  | none =>
      Except.error (mkAuthenticationError
        "No credentials provided. Include X-Slack-Bot-Token or X-Slack-User-Token header.")
  | some token =>
      if token = "" then
        Except.error (mkAuthenticationError
          "No credentials provided. Include X-Slack-Bot-Token or X-Slack-User-Token header.")
      else
        Except.ok
          { authorization := "Bearer " ++ token
            contentType := "application/json; charset=utf-8" }

-- =========================================================================
-- Request dispatcher (request, src/client.ts)
-- =========================================================================

/-- `response_metadata` of the response envelope. -/
structure ResponseMetadata where
  next_cursor : Option String
deriving DecidableEq, Repr

/-- The decoded response envelope: the `ok` flag, the optional `error`
code, the optional `response_metadata`, and the method-specific payload
fields collected in `payload`. -/
structure Envelope (P : Type) where
  ok : Bool
  error : Option String
  response_metadata : Option ResponseMetadata
  payload : P
deriving DecidableEq, Repr

/-- What the dispatcher observes of one HTTP response: the status code,
the `Retry-After` header (as `headers.get` returns it), and the decoded
JSON body. -/
structure HttpResponse (P : Type) where
  status : Nat
  retryAfterHeader : Option String
  body : Envelope P
deriving DecidableEq, Repr

/-- `retryAfter ? parseInt(retryAfter, 10) : 60`: the header is falsy when
absent or empty. -/
def retryAfterValue (retryAfter : Option String) : JsNum :=
  match retryAfter with
  | none => JsNum.int 60
  | some s => if s = "" then JsNum.int 60 else jsParseInt10 s

/-- The response-handling core of `request` in src/client.ts: status 429
fails as a rate-limit error built from the `Retry-After` header before the
body is consulted; otherwise a falsy `ok` flag routes the `error` field
through `mapSlackError` (`data.error || 'unknown_error'`); otherwise the
envelope is returned. -/
def request (P : Type) (resp : HttpResponse P) :
    Except SlackApiError (Envelope P) :=
  if resp.status = 429 then
    Except.error (mkRateLimitError "Rate limit exceeded"
      (retryAfterValue resp.retryAfterHeader))
  else if resp.body.ok = false then
    Except.error (mapSlackError (jsOrString resp.body.error "unknown_error")
      resp.body.error)
  else
    Except.ok resp.body

/-- The shape shared by every envelope-projecting client operation: one
dispatcher call whose successful envelope is projected into the typed
result, failures passing through untouched. -/
def clientOp (P R : Type) (project : Envelope P → R)
    (resp : HttpResponse P) : Except SlackApiError R :=
  (request P resp).map project

-- =========================================================================
-- Entity-client operations (src/client.ts), response projections
-- =========================================================================

/-- Method-specific payload of `conversations.list`: the `channels` array. -/
structure ChannelsBody (T : Type) where
  channels : List T
deriving DecidableEq, Repr

/-- `listConversations`: projects the `channels` array through
`createPaginatedResponse` with `hasMore: !!result.response_metadata?.next_cursor`
and `nextCursor: result.response_metadata?.next_cursor`. -/
def listConversations (T : Type) (resp : HttpResponse (ChannelsBody T)) :
    Except SlackApiError (PaginatedResponse T) :=
  (request (ChannelsBody T) resp).map (fun result =>
    createPaginatedResponse T result.payload.channels
      { hasMore := some (jsTruthyStr
          (result.response_metadata.bind (fun m => m.next_cursor)))
        nextCursor := result.response_metadata.bind (fun m => m.next_cursor) })

/-- Method-specific payload of `conversations.history`: the `messages`
array and the boolean `has_more` flag. -/
structure HistoryBody (T : Type) where
  messages : List T
  has_more : Bool
deriving DecidableEq, Repr

/-- `getConversationHistory`: projects the `messages` array through
`createPaginatedResponse` with `hasMore: result.has_more` and
`nextCursor: result.response_metadata?.next_cursor`. -/
def getConversationHistory (T : Type) (resp : HttpResponse (HistoryBody T)) :
    Except SlackApiError (PaginatedResponse T) :=
  (request (HistoryBody T) resp).map (fun result =>
    createPaginatedResponse T result.payload.messages
      { hasMore := some result.payload.has_more
        nextCursor := result.response_metadata.bind (fun m => m.next_cursor) })

/-- Method-specific payload of `auth.test`. -/
structure AuthTestBody where
  url : String
  team : String
  user : String
  team_id : String
  user_id : String
  bot_id : Option String
  is_enterprise_install : Option Bool
deriving DecidableEq, Repr

/-- The record `testConnection` resolves with. -/
structure ConnectionStatus where
  connected : Bool
  message : String
  team : Option String
  user : Option String
deriving DecidableEq, Repr

/-- `testConnection`: wraps the dispatcher call in a try/catch — on success
it reports `connected: true` with team and user, on any failure it returns
a normal record with `connected: false` and the failure's message. -/
def testConnection (resp : HttpResponse AuthTestBody) : ConnectionStatus :=
  match request AuthTestBody resp with
  | Except.ok result =>
      { connected := true
        message := "Successfully connected to Slack"
        team := some result.payload.team
        user := some result.payload.user }
  | Except.error e =>
      { connected := false
        message := e.message
        team := none
        user := none }

-- =========================================================================
-- Entity-client operations (src/client.ts), request-parameter builders
-- =========================================================================

/-- `PaginationParams` from src/types/entities.ts. -/
structure PaginationParams where
  limit : Option Int
  cursor : Option String
deriving DecidableEq, Repr

/-- `FileListParams` from src/types/entities.ts. -/
structure FileListParams where
  limit : Option Int
  cursor : Option String
  channel : Option String
  user : Option String
  types : Option String
  ts_from : Option Int
  ts_to : Option Int
deriving DecidableEq, Repr

/-- Lift an optional string into an optional JSON field value. -/
def optStrField (o : Option String) : Option Json :=
  o.map Json.str

/-- Lift an optional number into an optional JSON field value. -/
def optNumField (o : Option Int) : Option Json :=
  o.map Json.num

/-- The parameter record `listFiles` passes to the dispatcher for
`files.list`: filters plus `count: params?.limit || 100`; the caller's
`cursor` is never forwarded. -/
def listFilesParams (params : Option FileListParams) : ParamRecord :=
  [("channel", optStrField (params.bind (fun p => p.channel))),
   ("user", optStrField (params.bind (fun p => p.user))),
   ("types", optStrField (params.bind (fun p => p.types))),
   ("ts_from", optNumField (params.bind (fun p => p.ts_from))),
   ("ts_to", optNumField (params.bind (fun p => p.ts_to))),
   ("count", some (Json.num (jsOrNum (params.bind (fun p => p.limit)) 100)))]

/-- The parameter record `listStars` passes to the dispatcher for
`stars.list`: only `count: params?.limit || 100`; the caller's `cursor`
is never forwarded. -/
def listStarsParams (params : Option PaginationParams) : ParamRecord :=
  [("count", some (Json.num (jsOrNum (params.bind (fun p => p.limit)) 100)))]

/-- The parameter record `listUserReactions` passes to the dispatcher for
`reactions.list`: `user`, `count: params?.limit || 100`, and `full: true`;
the caller's `cursor` is never forwarded. -/
def listUserReactionsParams (userId : Option String)
    (params : Option PaginationParams) : ParamRecord :=
  [("user", optStrField userId),
   ("count", some (Json.num (jsOrNum (params.bind (fun p => p.limit)) 100))),
   ("full", some (Json.bool true))]

/-- The parameter record `setConversationTopic` passes to the dispatcher
for `conversations.setTopic`. -/
def setConversationTopicParams (channelId : String) (topic : String) :
    ParamRecord :=
  [("channel", some (Json.str channelId)),
   ("topic", some (Json.str topic))]

-- =========================================================================
-- File upload (uploadFile, src/client.ts): three-step protocol
-- =========================================================================

/-- Payload of `files.getUploadURLExternal`. -/
structure UploadUrlBody where
  upload_url : String
  file_id : String
deriving DecidableEq, Repr

/-- Payload of `files.completeUploadExternal`: the materialized files. -/
structure CompleteUploadBody (F : Type) where
  files : List F
deriving DecidableEq, Repr

/-- The two classified network round trips of the upload protocol (the raw
byte push of step 2 is a plain POST whose result the source discards). -/
structure UploadEnv (F : Type) where
  step1 : HttpResponse UploadUrlBody
  step3 : HttpResponse (CompleteUploadBody F)
deriving DecidableEq, Repr

/-- The parameter record of the slot-allocation call (step 1):
`{ filename, length: contentBytes.length }` where `contentBytes` is the
UTF-8 encoding of the content. -/
def uploadFileStep1Params (filename : String) (content : String) :
    ParamRecord :=
  [("filename", some (Json.str filename)),
   ("length", some (Json.num (String.utf8ByteSize content)))]

/-- `uploadFile`, steps 1 and 3 (step 2's plain POST is not classified and
its result is discarded): step 3 runs only after step 1 succeeded, and the
final result is `completeResult.files[0]` — `none` modelling the JS
`undefined` produced by indexing an empty array. -/
def uploadFile (F : Type) (env : UploadEnv F) :
    Except SlackApiError (Option F) :=
  match request UploadUrlBody env.step1 with
  | Except.error e => Except.error e
  | Except.ok _uploadUrlResult =>
      match request (CompleteUploadBody F) env.step3 with
      | Except.error e => Except.error e
      | Except.ok completeResult =>
          Except.ok completeResult.payload.files.head?

-- =========================================================================
-- Transport layer: fetch rejections propagate uncaught
-- =========================================================================

/-- Outcome of one `await fetch(...)`: either the promise rejected with a
raw transport error (network failure, timeout, connection reset) carrying
its message, or it resolved with an HTTP response. -/
inductive FetchOutcome (P : Type) where
  | err (message : String) : FetchOutcome P
  | resp (r : HttpResponse P) : FetchOutcome P
deriving DecidableEq, Repr

/-- A failure as the caller of a client operation observes it: either a
classified `SlackApiError` thrown by the dispatcher, or the raw transport
error of a rejected fetch — the client has no code path converting the
latter into a classified error. -/
inductive ClientFailure where
  | classified (e : SlackApiError) : ClientFailure
  | raw (message : String) : ClientFailure
deriving DecidableEq, Repr

/-- The message of a failure, as a catch-all `catch (error)` block reads it
(`error.message` in both cases, both being `Error` instances). -/
def ClientFailure.message : ClientFailure → String
  | ClientFailure.classified e => e.message
  | ClientFailure.raw m => m

/-- The dispatcher seen through the transport: `request` wraps `await
fetch` in no try/catch, so a fetch rejection propagates uncaught as the
raw error, while a resolved response is handled by `request`. -/
def requestT (P : Type) (out : FetchOutcome P) :
    Except ClientFailure (Envelope P) :=
  match out with
  | FetchOutcome.err m => Except.error (ClientFailure.raw m)
  | FetchOutcome.resp r =>
      match request P r with
      | Except.error e => Except.error (ClientFailure.classified e)
      | Except.ok v => Except.ok v

/-- An envelope-projecting operation seen through the transport. -/
def clientOpT (P R : Type) (project : Envelope P → R)
    (out : FetchOutcome P) : Except ClientFailure R :=
  (requestT P out).map project

/-- The upload protocol's network outcomes, transport included: the two
dispatched calls plus the raw byte push of step 2, a plain `await fetch`
whose resolved value the source discards and whose rejection propagates
uncaught (`none` = resolved, `some m` = rejected with message `m`). -/
structure UploadEnvT (F : Type) where
  step1 : FetchOutcome UploadUrlBody
  step2Rejection : Option String
  step3 : FetchOutcome (CompleteUploadBody F)
deriving DecidableEq, Repr

/-- `uploadFile` seen through the transport: each `await` propagates the
failure of its step before the next step begins. -/
def uploadFileT (F : Type) (env : UploadEnvT F) :
    Except ClientFailure (Option F) :=
  match requestT UploadUrlBody env.step1 with
  | Except.error e => Except.error e
  | Except.ok _uploadUrlResult =>
      match env.step2Rejection with
      | some m => Except.error (ClientFailure.raw m)
      | none =>
          match requestT (CompleteUploadBody F) env.step3 with
          | Except.error e => Except.error e
          | Except.ok completeResult =>
              Except.ok completeResult.payload.files.head?

/-- `testConnection` seen through the transport: its catch-all swallows a
raw transport rejection exactly as it swallows a classified error,
reporting the error's message. -/
def testConnectionT (out : FetchOutcome AuthTestBody) : ConnectionStatus :=
  match requestT AuthTestBody out with
  | Except.ok result =>
      { connected := true
        message := "Successfully connected to Slack"
        team := some result.payload.team
        user := some result.payload.user }
  | Except.error e =>
      { connected := false
        message := e.message
        team := none
        user := none }

-- =========================================================================
-- Helper lemmas
-- =========================================================================

/-- `takeWhile` keeps a list unchanged when the predicate holds of every
element. -/
theorem takeWhile_all_eq {p : Char → Bool} (l : List Char)
    (h : l.all p = true) : l.takeWhile p = l := by
  induction l with
  | nil => rfl
  | cons a t ih =>
    rw [List.all_cons, Bool.and_eq_true] at h
    simp [List.takeWhile_cons, h.1, ih h.2]

/-- A decimal digit character is not whitespace and not a sign. -/
theorem digit_char_props {c : Char} (h : c.isDigit = true) :
    isWs c = false ∧ c ≠ '-' ∧ c ≠ '+' := by
  refine ⟨?_, ?_, ?_⟩
  · have h1 : c ≠ ' ' := by intro e; rw [e] at h; exact absurd h (by decide)
    have h2 : c ≠ '\t' := by intro e; rw [e] at h; exact absurd h (by decide)
    have h3 : c ≠ '\n' := by intro e; rw [e] at h; exact absurd h (by decide)
    have h4 : c ≠ '\r' := by intro e; rw [e] at h; exact absurd h (by decide)
    simp [isWs, h1, h2, h3, h4]
  · intro e; rw [e] at h; exact absurd h (by decide)
  · intro e; rw [e] at h; exact absurd h (by decide)

/-- `parseInt(s, 10)` of a non-empty all-digit string is the decimal value
of its digits. -/
theorem jsParseInt10_digits (s : String) (hne : s.data ≠ [])
    (hdig : s.data.all Char.isDigit = true) :
    jsParseInt10 s = JsNum.int (digitsValL s.data) := by
  obtain ⟨c, t, hct⟩ : ∃ c t, s.data = c :: t := by
    cases h : s.data with
    | nil => exact absurd h hne
    | cons a b => exact ⟨a, b, rfl⟩
  have hc : c.isDigit = true := by
    rw [hct, List.all_cons, Bool.and_eq_true] at hdig; exact hdig.1
  have ht : (c :: t).all Char.isDigit = true := by rw [← hct]; exact hdig
  obtain ⟨hws, hminus, hplus⟩ := digit_char_props hc
  unfold jsParseInt10
  rw [hct, List.dropWhile_cons, hws]
  simp only [Bool.false_eq_true, if_false]
  simp [hminus, hplus, takeWhile_all_eq _ ht, hct]

/-- `jsTruthyStr` is false exactly on an absent or empty string. -/
theorem jsTruthyStr_eq_false_iff (o : Option String) :
    jsTruthyStr o = false ↔ (o = none ∨ o = some "") := by
  cases o with
  | none => simp [jsTruthyStr]
  | some s => simp [jsTruthyStr]

-- =========================================================================
-- Claim theorems
-- =========================================================================

/-- C1: the error classifier is a total pure function over all remote-code
strings implementing the spec's fixed mapping: auth-family codes give kind
Authentication with status 401 and retryable=false, permission-family codes
give Permission with 403, not-found-family codes give NotFound with 404,
"ratelimited" gives RateLimit with retryable=true and retryAfterSeconds=60,
and every other code gives the Generic kind with retryable=false. -/
theorem c1_classifier_fixed_mapping (code : String) (message : Option String) :
    (mapSlackError code message).kind = specKind code
    ∧ (mapSlackError code message).statusCode = specStatus code
    ∧ (mapSlackError code message).retryable
        = (if code = "ratelimited" then true else false)
    ∧ (mapSlackError code message).retryAfterSeconds
        = (if code = "ratelimited" then some (JsNum.int 60) else none) := by
  unfold mapSlackError
  split <;>
    simp_all [SlackApiError.kind, specKind, specStatus, authFamily,
      permissionFamily, notFoundFamily, mkAuthenticationError,
      mkPermissionError, mkNotFoundError, mkRateLimitError, mkSlackApiError]

/-- C3: every paginated result built by the pagination normalizer has its
count field equal to the number of elements of its items field, for any
item sequence and any hints. -/
theorem c3_count_eq_items_length (T : Type) (items : List T)
    (options : PaginationOptions) :
    (createPaginatedResponse T items options).count
      = (createPaginatedResponse T items options).items.length := rfl

/-- C9: for every not-found-family remote code the classified error's
message is the fixed string built from the remote code itself, the
remote-supplied message being discarded, while for the other families
(witnessed by invalid_auth) a supplied non-empty message is preserved. -/
theorem c9_notfound_message_from_code (message : Option String) :
    (mapSlackError "channel_not_found" message).message
      = "resource with ID \x27channel_not_found\x27 not found"
    ∧ (mapSlackError "user_not_found" message).message
      = "resource with ID \x27user_not_found\x27 not found"
    ∧ (mapSlackError "file_not_found" message).message
      = "resource with ID \x27file_not_found\x27 not found"
    ∧ (mapSlackError "message_not_found" message).message
      = "resource with ID \x27message_not_found\x27 not found"
    ∧ (∀ s : String, s ≠ "" →
        (mapSlackError "invalid_auth" (some s)).message = s) := by
  refine ⟨rfl, rfl, rfl, rfl, ?_⟩
  intro s hs
  simp [mapSlackError, mkAuthenticationError, jsOrString, hs]

/-- Witness for C9 at concrete inputs. -/
theorem c9_notfound_message_from_code_witness :
    (mapSlackError "channel_not_found" none).message
      = "resource with ID \x27channel_not_found\x27 not found"
    ∧ (mapSlackError "invalid_auth" (some "boom")).message = "boom" :=
  ⟨(c9_notfound_message_from_code none).1,
   (c9_notfound_message_from_code none).2.2.2.2 "boom" (by decide)⟩

/-- C5: credential resolution prefers the primary (bot) token, uses the
secondary token when it is the only one present, and fails with the
missing-credentials authentication failure (producing no header) when both
tokens are absent or empty. -/
theorem c5_credential_resolution :
    getAuthHeaders { botToken := some "A", userToken := some "B" }
      = Except.ok { authorization := "Bearer A"
                    contentType := "application/json; charset=utf-8" }
    ∧ (∀ s : String, s ≠ "" →
        getAuthHeaders { botToken := none, userToken := some s }
          = Except.ok { authorization := "Bearer " ++ s
                        contentType := "application/json; charset=utf-8" })
    ∧ (∀ c : TenantCredentials,
        (c.botToken = none ∨ c.botToken = some "") →
        (c.userToken = none ∨ c.userToken = some "") →
        ∃ e, getAuthHeaders c = Except.error e
          ∧ e.kind = ErrorKind.Authentication
          ∧ e.message
              = "No credentials provided. Include X-Slack-Bot-Token or X-Slack-User-Token header.") := by
  refine ⟨rfl, ?_, ?_⟩
  · intro s hs
    simp [getAuthHeaders, jsOrOptString, hs]
  · intro c hb hu
    obtain ⟨b, u⟩ := c
    have hb2 : b = none ∨ b = some "" := hb
    have hu2 : u = none ∨ u = some "" := hu
    rcases hb2 with rfl | rfl <;> rcases hu2 with rfl | rfl <;>
      exact ⟨_, rfl, rfl, rfl⟩

/-- Witness for C5 at concrete inputs. -/
theorem c5_credential_resolution_witness :
    getAuthHeaders { botToken := some "A", userToken := some "B" }
      = Except.ok { authorization := "Bearer A"
                    contentType := "application/json; charset=utf-8" }
    ∧ ∃ e, getAuthHeaders { botToken := none, userToken := none }
        = Except.error e
      ∧ e.kind = ErrorKind.Authentication
      ∧ e.message
          = "No credentials provided. Include X-Slack-Bot-Token or X-Slack-User-Token header." :=
  ⟨c5_credential_resolution.1,
   c5_credential_resolution.2.2 { botToken := none, userToken := none }
     (Or.inl rfl) (Or.inl rfl)⟩

/-- C10: the page-counted list operations never forward the caller's
pagination cursor: two parameter records differing only in the cursor
produce identical outgoing request bodies, and the outgoing keys are only
count and the non-pagination filters. -/
theorem c10_cursor_never_forwarded :
    (∀ (p : FileListParams) (c1 c2 : Option String),
        listFilesParams (some { p with cursor := c1 })
          = listFilesParams (some { p with cursor := c2 }))
    ∧ (∀ (p : PaginationParams) (c1 c2 : Option String),
        listStarsParams (some { p with cursor := c1 })
          = listStarsParams (some { p with cursor := c2 }))
    ∧ (∀ (u : Option String) (p : PaginationParams) (c1 c2 : Option String),
        listUserReactionsParams u (some { p with cursor := c1 })
          = listUserReactionsParams u (some { p with cursor := c2 }))
    ∧ (∀ ps, (listFilesParams ps).map Prod.fst
        = ["channel", "user", "types", "ts_from", "ts_to", "count"])
    ∧ (∀ ps, (listStarsParams ps).map Prod.fst = ["count"])
    ∧ (∀ u ps, (listUserReactionsParams u ps).map Prod.fst
        = ["user", "count", "full"]) :=
  ⟨fun _ _ _ => rfl, fun _ _ _ => rfl, fun _ _ _ _ => rfl,
   fun _ => rfl, fun _ => rfl, fun _ _ => rfl⟩

/-- C2: on HTTP status 429 the dispatcher fails immediately with a
retryable rate-limit error whose retryAfterSeconds is the parsed integer
Retry-After header when present (30 yields 30) and 60 when the header is
absent, without inspecting the response body; every operation — the
generic envelope-projecting shape, the list operations, and the
multi-step upload — fails with that same classified error and returns no
entity result. -/
theorem c2_rate_limit_from_status (P R F : Type) (project : Envelope P → R)
    (hdr : Option String) (b1 b2 : Envelope P)
    (cb : Envelope (ChannelsBody R)) (hb : Envelope (HistoryBody R))
    (s1b : Envelope UploadUrlBody)
    (s3 : HttpResponse (CompleteUploadBody F)) :
    request P { status := 429, retryAfterHeader := hdr, body := b1 }
      = request P { status := 429, retryAfterHeader := hdr, body := b2 }
    ∧ request P { status := 429, retryAfterHeader := hdr, body := b1 }
      = Except.error
          (mkRateLimitError "Rate limit exceeded" (retryAfterValue hdr))
    ∧ (mkRateLimitError "Rate limit exceeded" (retryAfterValue hdr)).kind
      = ErrorKind.RateLimit
    ∧ (mkRateLimitError "Rate limit exceeded" (retryAfterValue hdr)).retryable
      = true
    ∧ (mkRateLimitError "Rate limit exceeded"
        (retryAfterValue hdr)).retryAfterSeconds
      = some (retryAfterValue hdr)
    ∧ clientOp P R project { status := 429, retryAfterHeader := hdr, body := b1 }
      = Except.error
          (mkRateLimitError "Rate limit exceeded" (retryAfterValue hdr))
    ∧ listConversations R { status := 429, retryAfterHeader := hdr, body := cb }
      = Except.error
          (mkRateLimitError "Rate limit exceeded" (retryAfterValue hdr))
    ∧ getConversationHistory R
        { status := 429, retryAfterHeader := hdr, body := hb }
      = Except.error
          (mkRateLimitError "Rate limit exceeded" (retryAfterValue hdr))
    ∧ uploadFile F
        { step1 := { status := 429, retryAfterHeader := hdr, body := s1b }
          step3 := s3 }
      = Except.error
          (mkRateLimitError "Rate limit exceeded" (retryAfterValue hdr))
    ∧ retryAfterValue (some "30") = JsNum.int 30
    ∧ retryAfterValue none = JsNum.int 60
    ∧ (∀ s : String, s.data ≠ [] → s.data.all Char.isDigit = true →
        retryAfterValue (some s) = JsNum.int (digitsValL s.data)) := by
  refine ⟨rfl, rfl, rfl, rfl, rfl, rfl, rfl, rfl, rfl, by decide, rfl, ?_⟩
  intro s hne hdig
  have hs : s ≠ "" := by
    intro e
    rw [e] at hne
    exact hne rfl
  rw [retryAfterValue, if_neg hs]
  exact jsParseInt10_digits s hne hdig

/-- Witness for C2: a 429 response carrying Retry-After 30 makes the
dispatcher, a projecting operation and the history operation all fail
with the rate-limit error carrying retryAfterSeconds 30, the parsed
header value being 30. -/
theorem c2_rate_limit_from_status_witness :
    retryAfterValue (some "30") = JsNum.int 30
    ∧ request Unit
        { status := 429, retryAfterHeader := some "30",
          body := { ok := true, error := none, response_metadata := none,
                    payload := () } }
      = Except.error (mkRateLimitError "Rate limit exceeded" (JsNum.int 30))
    ∧ getConversationHistory Unit
        { status := 429, retryAfterHeader := some "30",
          body := { ok := true, error := none, response_metadata := none,
                    payload := { messages := [], has_more := false } } }
      = Except.error (mkRateLimitError "Rate limit exceeded" (JsNum.int 30)) := by
  obtain ⟨h1, h2, h3, h4, h5, h6, h7, h8, h9, h10, h11, h12⟩ :=
    c2_rate_limit_from_status Unit Unit Unit (fun _ => ()) (some "30")
      { ok := true, error := none, response_metadata := none, payload := () }
      { ok := false, error := some "x", response_metadata := none,
        payload := () }
      { ok := true, error := none, response_metadata := none,
        payload := { channels := [] } }
      { ok := true, error := none, response_metadata := none,
        payload := { messages := [], has_more := false } }
      { ok := true, error := none, response_metadata := none,
        payload := { upload_url := "u", file_id := "f" } }
      { status := 200, retryAfterHeader := none,
        body := { ok := true, error := none, response_metadata := none,
                  payload := { files := [] } } }
  have h30 : retryAfterValue (some "30") = JsNum.int (digitsValL "30".data) :=
    h12 "30" (by decide) (by decide)
  have hval : retryAfterValue (some "30") = JsNum.int 30 := by
    rw [h30]; decide
  refine ⟨hval, ?_, ?_⟩
  · rw [h2, hval]
  · rw [h8, hval]

/-- C4 counterexample: a conversation-history response whose remote
has_more flag is false but whose response_metadata still carries a cursor
produces a result with hasMore = false and nextCursor present, refuting
"hasMore = false implies nextCursor is absent". -/
theorem c4_counterexample :
    ¬ (∀ (resp : HttpResponse (HistoryBody Unit))
         (r : PaginatedResponse Unit),
        getConversationHistory Unit resp = Except.ok r →
        r.hasMore = false → r.nextCursor = none) := by
  intro h
  have hc := h
    { status := 200, retryAfterHeader := none,
      body := { ok := true, error := none,
                response_metadata := some { next_cursor := some "abc" },
                payload := { messages := [], has_more := false } } }
    { items := [], count := 0, hasMore := false, nextCursor := some "abc" }
    rfl rfl
  simp at hc

/-- C4 amended: the normalizer passes nextCursor through unchanged
regardless of hasMore. For cursor-style endpoints (listConversations)
hasMore is false exactly when the remote cursor is absent or empty, so
there hasMore = false forces nextCursor to be absent or the empty string;
for the boolean-flag endpoint conversation history hasMore is the remote
has_more flag and nextCursor is taken independently from
response_metadata, so hasMore = false does not constrain nextCursor. -/
theorem c4_amended_cursor_passthrough (T U : Type) :
    (∀ (resp : HttpResponse (ChannelsBody T)) (r : PaginatedResponse T),
        listConversations T resp = Except.ok r →
        r.nextCursor = resp.body.response_metadata.bind (fun m => m.next_cursor)
        ∧ (r.hasMore = false ↔
            (r.nextCursor = none ∨ r.nextCursor = some "")))
    ∧ (∀ (resp : HttpResponse (HistoryBody U)) (r : PaginatedResponse U),
        getConversationHistory U resp = Except.ok r →
        r.hasMore = resp.body.payload.has_more
        ∧ r.nextCursor
            = resp.body.response_metadata.bind (fun m => m.next_cursor)) := by
  constructor
  · intro resp r h
    unfold listConversations request at h
    by_cases h429 : resp.status = 429
    · rw [if_pos h429] at h
      simp [Except.map] at h
    · rw [if_neg h429] at h
      by_cases hok : resp.body.ok = false
      · rw [if_pos hok] at h
        simp [Except.map] at h
      · rw [if_neg hok] at h
        simp only [Except.map, Except.ok.injEq] at h
        subst h
        refine ⟨rfl, ?_⟩
        simpa [createPaginatedResponse] using
          jsTruthyStr_eq_false_iff
            (resp.body.response_metadata.bind (fun m => m.next_cursor))
  · intro resp r h
    unfold getConversationHistory request at h
    by_cases h429 : resp.status = 429
    · rw [if_pos h429] at h
      simp [Except.map] at h
    · rw [if_neg h429] at h
      by_cases hok : resp.body.ok = false
      · rw [if_pos hok] at h
        simp [Except.map] at h
      · rw [if_neg hok] at h
        simp only [Except.map, Except.ok.injEq] at h
        subst h
        exact ⟨rfl, rfl⟩

/-- Witness for C4 amended, on a concrete conversation-history response. -/
theorem c4_amended_cursor_passthrough_witness :
    (createPaginatedResponse Unit ([] : List Unit)
        { hasMore := some false, nextCursor := some "abc" }).hasMore = false
    ∧ (createPaginatedResponse Unit ([] : List Unit)
        { hasMore := some false, nextCursor := some "abc" }).nextCursor
      = some "abc" :=
  (c4_amended_cursor_passthrough Unit Unit).2
    { status := 200, retryAfterHeader := none,
      body := { ok := true, error := none,
                response_metadata := some { next_cursor := some "abc" },
                payload := { messages := [], has_more := false } } }
    (createPaginatedResponse Unit []
      { hasMore := some false, nextCursor := some "abc" })
    rfl

/-- C6 counterexample: at the serialization layer an explicitly supplied
empty-string topic is kept in the outgoing body (as an empty-string
value), so it is distinguishable from omitting the field, refuting "both
cases produce identical outgoing bodies". -/
theorem c6_counterexample :
    ("topic", Json.str "")
      ∈ stringifyParams (setConversationTopicParams "C123" "")
    ∧ stringifyParams (setConversationTopicParams "C123" "")
      ≠ stringifyParams [("channel", some (Json.str "C123")), ("topic", none)] := by
  constructor
  · decide
  · decide

/-- C6 amended: a parameter field whose value is absent is omitted from
the outgoing JSON body and is never serialized as null, but a field
supplied as an explicit empty string is serialized with the empty string
as its value, so the two cases produce different outgoing bodies. -/
theorem c6_amended_serialization :
    (∀ (ps : ParamRecord) (k : String) (v : Json),
        (k, v) ∈ stringifyParams ps ↔ (k, some v) ∈ ps)
    ∧ (∀ ch : String,
        stringifyParams [("channel", some (Json.str ch)), ("topic", none)]
          = [("channel", Json.str ch)])
    ∧ (∀ ch t : String,
        stringifyParams (setConversationTopicParams ch t)
          = [("channel", Json.str ch), ("topic", Json.str t)]) := by
  refine ⟨?_, fun _ => rfl, fun _ _ => rfl⟩
  intro ps k v
  constructor
  · intro h
    obtain ⟨⟨k2, v2⟩, hmem, heq⟩ := List.mem_filterMap.mp h
    cases v2 with
    | none => simp at heq
    | some w =>
      simp only [Option.map_some', Option.some.injEq, Prod.mk.injEq] at heq
      obtain ⟨hk, hv⟩ := heq
      rw [← hk, ← hv]
      exact hmem
  · intro h
    exact List.mem_filterMap.mpr ⟨(k, some v), h, rfl⟩

/-- Witness for C6 amended at a concrete record. -/
theorem c6_amended_serialization_witness :
    ("topic", Json.str "x")
      ∈ stringifyParams (setConversationTopicParams "C1" "x") :=
  (c6_amended_serialization.1 (setConversationTopicParams "C1" "x")
    "topic" (Json.str "x")).mpr (by decide)

/-- C7: the slot-allocation call of the upload protocol is invoked with
length equal to the exact byte length of the content (10 for a 10-byte
payload), a step-1 failure short-circuits the protocol before step 3 is
consulted, but when the finalize step returns zero files the operation
succeeds with no file entity (the JS undefined of files[0]) instead of
failing. -/
theorem c7_upload_zero_files_returns_no_entity :
    stringifyParams (uploadFileStep1Params "notes.txt" "0123456789")
      = [("filename", Json.str "notes.txt"), ("length", Json.num 10)]
    ∧ uploadFile Unit
        { step1 := { status := 200, retryAfterHeader := none,
                     body := { ok := true, error := none,
                               response_metadata := none,
                               payload := { upload_url := "https://up.example",
                                            file_id := "F123" } } }
          step3 := { status := 200, retryAfterHeader := none,
                     body := { ok := true, error := none,
                               response_metadata := none,
                               payload := { files := [] } } } }
      = Except.ok none
    ∧ uploadFile Unit
        { step1 := { status := 429, retryAfterHeader := none,
                     body := { ok := true, error := none,
                               response_metadata := none,
                               payload := { upload_url := "u",
                                            file_id := "f" } } }
          step3 := { status := 200, retryAfterHeader := none,
                     body := { ok := true, error := none,
                               response_metadata := none,
                               payload := { files := [()] } } } }
      = uploadFile Unit
        { step1 := { status := 429, retryAfterHeader := none,
                     body := { ok := true, error := none,
                               response_metadata := none,
                               payload := { upload_url := "u",
                                            file_id := "f" } } }
          step3 := { status := 200, retryAfterHeader := none,
                     body := { ok := false, error := some "x",
                               response_metadata := none,
                               payload := { files := [] } } } } :=
  ⟨rfl, rfl, rfl⟩

/-- C8 counterexample: the claim fails twice on concrete inputs. The
connection-test operation swallows a remote failure — on an envelope with
ok false and code invalid_auth the dispatcher fails with a classified
error, yet testConnection returns a normal result, including when the
failure is a transport rejection. And a transport failure surfaces to the
caller of any operation as the raw error, not as a classified error. -/
theorem c8_counterexample :
    request AuthTestBody
        { status := 200, retryAfterHeader := none,
          body := { ok := false, error := some "invalid_auth",
                    response_metadata := none,
                    payload := { url := "", team := "", user := "",
                                 team_id := "", user_id := "",
                                 bot_id := none,
                                 is_enterprise_install := none } } }
      = Except.error (mkAuthenticationError "invalid_auth")
    ∧ testConnection
        { status := 200, retryAfterHeader := none,
          body := { ok := false, error := some "invalid_auth",
                    response_metadata := none,
                    payload := { url := "", team := "", user := "",
                                 team_id := "", user_id := "",
                                 bot_id := none,
                                 is_enterprise_install := none } } }
      = { connected := false, message := "invalid_auth",
          team := none, user := none }
    ∧ requestT Unit (FetchOutcome.err "network timeout")
      = Except.error (ClientFailure.raw "network timeout")
    ∧ clientOpT Unit Unit (fun _ => ()) (FetchOutcome.err "network timeout")
      = Except.error (ClientFailure.raw "network timeout")
    ∧ testConnectionT (FetchOutcome.err "network timeout")
      = { connected := false, message := "network timeout",
          team := none, user := none } :=
  ⟨rfl, rfl, rfl, rfl, rfl⟩

/-- C8 amended: every failure of every client operation surfaces to the
caller and none is retried internally, qualified in the two ways the code
forces. First, only rate limits and remote error envelopes surface as
classified errors; a transport failure (a rejected fetch, including the
raw byte push of upload step 2) propagates to the caller as the raw,
unclassified error. Second, the connection-test operation swallows every
failure, classified or transport, returning a normal record with
connected = false and the failure's message. All other operations — the
envelope-projecting shape and every step of the multi-step upload —
propagate every failure unchanged. -/
theorem c8_amended_propagation (P R F : Type) (project : Envelope P → R)
    (out : FetchOutcome P) (uenv : UploadEnvT F)
    (tout : FetchOutcome AuthTestBody) (e f g : ClientFailure) (m : String) :
    (requestT P out = Except.error e →
      clientOpT P R project out = Except.error e)
    ∧ (∀ (r : HttpResponse P) (e2 : SlackApiError),
        request P r = Except.error e2 →
        requestT P (FetchOutcome.resp r)
          = Except.error (ClientFailure.classified e2))
    ∧ requestT P (FetchOutcome.err m) = Except.error (ClientFailure.raw m)
    ∧ (requestT UploadUrlBody uenv.step1 = Except.error f →
        uploadFileT F uenv = Except.error f)
    ∧ (∀ v : Envelope UploadUrlBody,
        requestT UploadUrlBody uenv.step1 = Except.ok v →
        uenv.step2Rejection = some m →
        uploadFileT F uenv = Except.error (ClientFailure.raw m))
    ∧ (∀ v : Envelope UploadUrlBody,
        requestT UploadUrlBody uenv.step1 = Except.ok v →
        uenv.step2Rejection = none →
        requestT (CompleteUploadBody F) uenv.step3 = Except.error g →
        uploadFileT F uenv = Except.error g)
    ∧ (requestT AuthTestBody tout = Except.error e →
        testConnectionT tout
          = { connected := false, message := e.message,
              team := none, user := none }) := by
  refine ⟨?_, ?_, rfl, ?_, ?_, ?_, ?_⟩
  · intro h
    unfold clientOpT
    rw [h]
    rfl
  · intro r e2 h
    unfold requestT
    dsimp only
    rw [h]
  · intro h
    unfold uploadFileT
    rw [h]
  · intro v h1 h2
    unfold uploadFileT
    rw [h1, h2]
  · intro v h1 h2 h3
    unfold uploadFileT
    rw [h1, h2, h3]
  · intro h
    unfold testConnectionT
    rw [h]

/-- Witness for C8 amended: concrete failures of every kind — a transport
rejection through a projecting operation, a classified rate limit through
the dispatcher, each of the three upload steps failing, and the
connection test swallowing a transport failure. -/
theorem c8_amended_propagation_witness :
    clientOpT Unit Unit (fun _ => ()) (FetchOutcome.err "network timeout")
      = Except.error (ClientFailure.raw "network timeout")
    ∧ requestT Unit
        (FetchOutcome.resp
          { status := 429, retryAfterHeader := none,
            body := { ok := true, error := none, response_metadata := none,
                      payload := () } })
      = Except.error (ClientFailure.classified
          (mkRateLimitError "Rate limit exceeded" (JsNum.int 60)))
    ∧ uploadFileT Unit
        { step1 := FetchOutcome.err "connection reset"
          step2Rejection := none
          step3 := FetchOutcome.err "x" }
      = Except.error (ClientFailure.raw "connection reset")
    ∧ uploadFileT Unit
        { step1 := FetchOutcome.resp
            { status := 200, retryAfterHeader := none,
              body := { ok := true, error := none, response_metadata := none,
                        payload := { upload_url := "u", file_id := "f" } } }
          step2Rejection := some "socket hang up"
          step3 := FetchOutcome.err "x" }
      = Except.error (ClientFailure.raw "socket hang up")
    ∧ uploadFileT Unit
        { step1 := FetchOutcome.resp
            { status := 200, retryAfterHeader := none,
              body := { ok := true, error := none, response_metadata := none,
                        payload := { upload_url := "u", file_id := "f" } } }
          step2Rejection := none
          step3 := FetchOutcome.resp
            { status := 200, retryAfterHeader := none,
              body := { ok := false, error := some "invalid_auth",
                        response_metadata := none,
                        payload := { files := [] } } } }
      = Except.error (ClientFailure.classified
          (mkAuthenticationError "invalid_auth"))
    ∧ testConnectionT (FetchOutcome.err "network timeout")
      = { connected := false, message := "network timeout",
          team := none, user := none } := by
  refine ⟨?_, ?_, ?_, ?_, ?_, ?_⟩
  · exact (c8_amended_propagation Unit Unit Unit (fun _ => ())
      (FetchOutcome.err "network timeout")
      { step1 := FetchOutcome.err "x", step2Rejection := none,
        step3 := FetchOutcome.err "x" }
      (FetchOutcome.err "z") (ClientFailure.raw "network timeout")
      (ClientFailure.raw "q") (ClientFailure.raw "q") "w").1 rfl
  · exact (c8_amended_propagation Unit Unit Unit (fun _ => ())
      (FetchOutcome.err "z")
      { step1 := FetchOutcome.err "x", step2Rejection := none,
        step3 := FetchOutcome.err "x" }
      (FetchOutcome.err "z") (ClientFailure.raw "q")
      (ClientFailure.raw "q") (ClientFailure.raw "q") "w").2.1
      { status := 429, retryAfterHeader := none,
        body := { ok := true, error := none, response_metadata := none,
                  payload := () } }
      (mkRateLimitError "Rate limit exceeded" (JsNum.int 60)) rfl
  · exact (c8_amended_propagation Unit Unit Unit (fun _ => ())
      (FetchOutcome.err "z")
      { step1 := FetchOutcome.err "connection reset", step2Rejection := none,
        step3 := FetchOutcome.err "x" }
      (FetchOutcome.err "z") (ClientFailure.raw "q")
      (ClientFailure.raw "connection reset") (ClientFailure.raw "q")
      "w").2.2.2.1 rfl
  · exact (c8_amended_propagation Unit Unit Unit (fun _ => ())
      (FetchOutcome.err "z")
      { step1 := FetchOutcome.resp
          { status := 200, retryAfterHeader := none,
            body := { ok := true, error := none, response_metadata := none,
                      payload := { upload_url := "u", file_id := "f" } } }
        step2Rejection := some "socket hang up"
        step3 := FetchOutcome.err "x" }
      (FetchOutcome.err "z") (ClientFailure.raw "q")
      (ClientFailure.raw "q") (ClientFailure.raw "q")
      "socket hang up").2.2.2.2.1
      { ok := true, error := none, response_metadata := none,
        payload := { upload_url := "u", file_id := "f" } }
      rfl rfl
  · exact (c8_amended_propagation Unit Unit Unit (fun _ => ())
      (FetchOutcome.err "z")
      { step1 := FetchOutcome.resp
          { status := 200, retryAfterHeader := none,
            body := { ok := true, error := none, response_metadata := none,
                      payload := { upload_url := "u", file_id := "f" } } }
        step2Rejection := none
        step3 := FetchOutcome.resp
          { status := 200, retryAfterHeader := none,
            body := { ok := false, error := some "invalid_auth",
                      response_metadata := none,
                      payload := { files := [] } } } }
      (FetchOutcome.err "z") (ClientFailure.raw "q")
      (ClientFailure.raw "q")
      (ClientFailure.classified (mkAuthenticationError "invalid_auth"))
      "w").2.2.2.2.2.1
      { ok := true, error := none, response_metadata := none,
        payload := { upload_url := "u", file_id := "f" } }
      rfl rfl rfl
  · exact (c8_amended_propagation Unit Unit Unit (fun _ => ())
      (FetchOutcome.err "z")
      { step1 := FetchOutcome.err "x", step2Rejection := none,
        step3 := FetchOutcome.err "x" }
      (FetchOutcome.err "network timeout")
      (ClientFailure.raw "network timeout")
      (ClientFailure.raw "q") (ClientFailure.raw "q") "w").2.2.2.2.2.2 rfl

end Slack
